import Mathlib

set_option maxRecDepth 100000
set_option maxHeartbeats 1000000

/-!
Verification of the repository `web3AIRuntime`, whose only source file is
`src/examples/defi-metrics/cocoindex/flow.py`: a Python module consisting of a
module docstring followed by comment lines.  We embed the file verbatim as a
list of lines, scan it with a small line-level model of Python's lexical
structure (blank lines, `#` comments, triple-quoted string literals), obtain
the module's statement list, and give the statements an operational semantics
over a module namespace together with an external-effect trace.
-/

/-- A physical line of source text, as a list of characters. -/
abbrev Line := List Char

/-- The 38 physical lines of `src/examples/defi-metrics/cocoindex/flow.py`,
verbatim (the file has no trailing newline after the last line). -/
def flowPyStrings : List String :=
  [ "\"\"\"Placeholder CocoIndex flow."
  , ""
  , "This file is intentionally a sketch, because w3rt\x27s CI/runtime is TS/Node."
  , "Run CocoIndex as a sidecar to populate Postgres table \x60defi_metrics\x60."
  , ""
  , "You can implement sources per protocol (Solend/Kamino/Meteora/Drift/Jito/Marinade/Jupiter)"
  , "then export normalized rows."
  , ""
  , "Docs: https://cocoindex.io/docs"
  , "\"\"\""
  , ""
  , "# Example outline (pseudo-code):"
  , "#"
  , "# import cocoindex"
  , "#"
  , "# @cocoindex.flow_def(name=\"SolanaDefiMetrics\")"
  , "# def flow(flow_builder: cocoindex.FlowBuilder, scope: cocoindex.DataScope):"
  , "#     scope[\"raw\"] = flow_builder.add_source(cocoindex.sources.HttpJson(urls=[...]))"
  , "#     metrics = scope.add_collector()"
  , "#     with scope[\"raw\"].row() as row:"
  , "#         # normalize to our schema"
  , "#         metrics.collect("
  , "#             chain=\"solana\","
  , "#             protocol=row[\"protocol\"],"
  , "#             market=row[\"market\"],"
  , "#             tvl_usd=row[\"tvl_usd\"],"
  , "#             liquidity_usd=row[\"liquidity_usd\"],"
  , "#             price_vol_5m_bps=row[\"price_vol_5m_bps\"],"
  , "#             borrow_utilization_bps=row[\"borrow_utilization_bps\"],"
  , "#             source_url=row[\"source_url\"],"
  , "#             updated_at=row[\"updated_at\"],"
  , "#         )"
  , "#"
  , "#     metrics.export("
  , "#         \"defi_metrics\","
  , "#         cocoindex.targets.Postgres(),"
  , "#         primary_key_fields=[\"chain\", \"protocol\", \"market\"],"
  , "#     )" ]

/-- The file as a list of character lines. -/
def flowPyLines : List Line := flowPyStrings.map String.data

/-- Horizontal whitespace. -/
def isSpaceChar (c : Char) : Bool := c == ' ' || c == '\t'

/-- Drop leading horizontal whitespace of a line. -/
def stripIndent (l : Line) : Line := l.dropWhile isSpaceChar

/-- A line consisting only of whitespace (or nothing). -/
def isBlankLine (l : Line) : Bool := (stripIndent l).isEmpty

/-- A line whose first non-whitespace character is `#`. -/
def isCommentLine (l : Line) : Bool :=
  match stripIndent l with
  | '#' :: _ => true
  | _ => false

/-- The triple-quote delimiter of a Python multi-line string literal. -/
def tqDelim : Line := ['"', '"', '"']

/-- Split a line at the first occurrence of `"""`: returns the characters
before the delimiter and the characters after it, or `none` when the line
contains no triple quote. -/
def splitTQ : Line → Option (Line × Line)
  | [] => none
  | c :: cs =>
    if List.take 3 (c :: cs) = tqDelim then some ([], List.drop 3 (c :: cs))
    else
      match splitTQ cs with
      | some (b, a) => some (c :: b, a)
      | none => none

/-- Join line chunks with newline characters, as Python joins the physical
lines of a multi-line string literal. -/
def joinNL : List Line → Line
  | [] => []
  | [l] => l
  | l :: ls => l ++ '\n' :: joinNL ls

/-- A top-level Python statement, in the fragment needed for this module:
a bare string-literal expression statement (a docstring), a module import,
a string assignment, a function definition, or a call of a name. -/
inductive PyStmt where
  | exprStr (content : Line)
  | importMod (m : Line)
  | assignStr (name : Line) (v : Line)
  | defFun (name : Line)
  | callName (f : Line)
  deriving DecidableEq, Repr

/-- Scanner state: at top level, or inside an unterminated triple-quoted
string with the accumulated line chunks. -/
inductive ScanSt where
  | outside
  | inStr (acc : List Line)

/-- Scan the physical lines of a module into its top-level statements.
Blank lines and comment lines are insignificant; a triple-quoted string
literal standing alone is an `exprStr` statement; any other code is outside
the modelled fragment and makes the scan fail. -/
def scanLines : ScanSt → List Line → Option (List PyStmt)
  | ScanSt.outside, [] => some []
  | ScanSt.outside, l :: ls =>
    (match stripIndent l with
     | [] => scanLines ScanSt.outside ls
     | '#' :: _ => scanLines ScanSt.outside ls
     | t =>
       if List.take 3 t = tqDelim then
         (match splitTQ (List.drop 3 t) with
          | some (content, after) =>
            if isBlankLine after then
              (scanLines ScanSt.outside ls).map (fun ss => PyStmt.exprStr content :: ss)
            else none
          | none => scanLines (ScanSt.inStr [List.drop 3 t]) ls)
       else none)
  | ScanSt.inStr _, [] => none
  | ScanSt.inStr acc, l :: ls =>
    (match splitTQ l with
     | none => scanLines (ScanSt.inStr (acc ++ [l])) ls
     | some (before, after) =>
       if isBlankLine after then
         (scanLines ScanSt.outside ls).map
           (fun ss => PyStmt.exprStr (joinNL (acc ++ [before])) :: ss)
       else none)

/-- Parse a module given as physical lines. -/
def parsePyModule (lines : List Line) : Option (List PyStmt) :=
  scanLines ScanSt.outside lines

/-- The module docstring of `flow.py`: the text between the `"""` delimiters
of lines 1-10, newline-joined (with the trailing newline before the closing
delimiter on line 10). -/
def flowDocstring : Line :=
  ("Placeholder CocoIndex flow.\n\nThis file is intentionally a sketch, because w3rt\x27s CI/runtime is TS/Node.\nRun CocoIndex as a sidecar to populate Postgres table \x60defi_metrics\x60.\n\nYou can implement sources per protocol (Solend/Kamino/Meteora/Drift/Jito/Marinade/Jupiter)\nthen export normalized rows.\n\nDocs: https://cocoindex.io/docs\n").data

/-- The statement list of the module: its single statement is the docstring
string literal.  (`parsePyModule flowPyLines = some flowModule` is proved
below.) -/
def flowModule : List PyStmt := [PyStmt.exprStr flowDocstring]

/-- A Python runtime value, in the fragment needed here. -/
inductive PyVal where
  | vstr (s : Line)
  | vfun (name : Line)
  | vmodule (name : Line)
  deriving DecidableEq, Repr

/-- An externally visible effect of executing a statement: importing a module
(which touches the interpreter's module state and possibly the filesystem) or
calling a function (which may perform network or database I/O). -/
inductive PyEffect where
  | effImport (m : Line)
  | effCall (f : Line)
  deriving DecidableEq, Repr

/-- A runtime error raised during module execution. -/
inductive PyErr where
  | importError (m : Line)
  | nameError (n : Line)
  deriving DecidableEq, Repr

/-- The module's namespace after (partial) execution: name bindings. -/
structure ModState where
  binds : List (Line × PyVal)
  deriving DecidableEq, Repr

/-- Look a name up in a binding list. -/
def lookupBind (n : Line) : List (Line × PyVal) → Option PyVal
  | [] => none
  | (k, v) :: rest => if k = n then some v else lookupBind n rest

/-- Execute one statement.  `env m` says whether module `m` is available to be
imported; importing an unavailable module raises `importError`, a call of an
unbound name raises `nameError`.  Successful imports and calls are recorded in
the effect trace. -/
def execStmt (env : Line → Bool) (st : ModState) :
    PyStmt → Except PyErr (ModState × List PyEffect)
  | PyStmt.exprStr _ => Except.ok (st, [])
  | PyStmt.importMod m =>
    if env m then Except.ok (⟨(m, PyVal.vmodule m) :: st.binds⟩, [PyEffect.effImport m])
    else Except.error (PyErr.importError m)
  | PyStmt.assignStr n v => Except.ok (⟨(n, PyVal.vstr v) :: st.binds⟩, [])
  | PyStmt.defFun n => Except.ok (⟨(n, PyVal.vfun n) :: st.binds⟩, [])
  | PyStmt.callName f =>
    match lookupBind f st.binds with
    | some _ => Except.ok (st, [PyEffect.effCall f])
    | none => Except.error (PyErr.nameError f)

/-- Execute a statement list, threading the namespace and concatenating the
effect traces; the first error aborts execution. -/
def execStmts (env : Line → Bool) :
    List PyStmt → ModState → Except PyErr (ModState × List PyEffect)
  | [], st => Except.ok (st, [])
  | s :: rest, st =>
    match execStmt env st s with
    | Except.error e => Except.error e
    | Except.ok (st2, effs) =>
      match execStmts env rest st2 with
      | Except.error e => Except.error e
      | Except.ok (st3, effs2) => Except.ok (st3, effs ++ effs2)

/-- The name `__doc__`. -/
def docName : Line := "__doc__".data

/-- A module's initial namespace: when the first statement is a bare string
literal, Python binds it as the module docstring `__doc__`. -/
def initStateFor (prog : List PyStmt) : ModState :=
  match prog with
  | PyStmt.exprStr s :: _ => ⟨[(docName, PyVal.vstr s)]⟩
  | _ => ⟨[]⟩

/-- Execute a module: bind the docstring, then run the statements. -/
def execModule (env : Line → Bool) (prog : List PyStmt) :
    Except PyErr (ModState × List PyEffect) :=
  execStmts env prog (initStateFor prog)

/-- A name is public when it does not start with an underscore. -/
def isPublicName (n : Line) : Bool :=
  match n with
  | '_' :: _ => false
  | _ => true

/-- The public names bound in a module namespace. -/
def publicNames (st : ModState) : List Line :=
  (st.binds.filter (fun p => isPublicName p.1)).map (fun p => p.1)

/-- The module state after executing `flow.py`: only `__doc__` is bound. -/
def flowFinalState : ModState := ⟨[(docName, PyVal.vstr flowDocstring)]⟩

/-- The empty Python program. -/
def emptyProgram : List PyStmt := []

/-- The trivial module described by the spec: the empty program extended
with the docstring assignment and nothing else. -/
def trivialDocOnlyModule : List PyStmt := emptyProgram ++ [PyStmt.exprStr flowDocstring]

/-- Does a statement perform an import? -/
def isImportStmt : PyStmt → Bool
  | PyStmt.importMod _ => true
  | _ => false

/-- Is a statement a call expression? -/
def isCallStmt : PyStmt → Bool
  | PyStmt.callName _ => true
  | _ => false

/-- The nine row field names mentioned in the pseudo-code comments. -/
def metricFieldNames : List Line :=
  [ "chain".data, "protocol".data, "market".data, "tvl_usd".data
  , "liquidity_usd".data, "price_vol_5m_bps".data, "borrow_utilization_bps".data
  , "source_url".data, "updated_at".data ]

/-- The name `flow`. -/
def flowName : Line := "flow".data

/-- Sanity link between the raw file and the embedded statement list. -/
theorem parse_flowPy : parsePyModule flowPyLines = some flowModule := by decide

/-- Claim C1: the module `flow.py` is equivalent to a trivial module that
does nothing except bind the module docstring.  The file parses to
`flowModule`, and for every import environment its execution coincides with
that of the empty program extended with the docstring statement. -/
theorem c1_trivial_equiv (env : Line → Bool) :
    parsePyModule flowPyLines = some flowModule ∧
    execModule env flowModule = execModule env trivialDocOnlyModule := by
  exact ⟨by decide, rfl⟩

/-- Witness for C1 at a concrete environment. -/
theorem c1_trivial_equiv_witness :
    parsePyModule flowPyLines = some flowModule ∧
    execModule (fun _ => false) flowModule
      = execModule (fun _ => false) trivialDocOnlyModule :=
  c1_trivial_equiv (fun _ => false)

/-- Claim C2, counterexample: the file indeed has 38 lines, but it is not
true that every line is a comment line (line 1 opens the docstring). -/
theorem c2_counterexample :
    flowPyLines.length = 38 ∧ ¬ (∀ l ∈ flowPyLines, isCommentLine l = true) := by
  decide

/-- Claim C2, amended: the file has 38 lines; its 27 comment lines are lines
12-38, lines 1-10 form the module docstring literal (so parsing yields only
the docstring statement), and the one remaining line (line 11) is blank:
every line after the docstring is a comment line or blank. -/
theorem c2_amended :
    flowPyLines.length = 38 ∧
    (flowPyLines.filter isCommentLine).length = 27 ∧
    (flowPyLines.drop 10).all (fun l => isCommentLine l || isBlankLine l) = true ∧
    parsePyModule flowPyLines = some flowModule := by
  decide

/-- Claim C3: the only top-level statement of the module is the single
docstring string literal (already the parse of the first 10 lines), and every
line of the file other than the docstring lines is a comment line or blank. -/
theorem c3_docstring_and_comments_only :
    parsePyModule flowPyLines = some [PyStmt.exprStr flowDocstring] ∧
    parsePyModule (flowPyLines.take 10) = some [PyStmt.exprStr flowDocstring] ∧
    (flowPyLines.drop 10).all (fun l => isCommentLine l || isBlankLine l) = true := by
  decide

/-- Claim C4: for every import environment, executing the module raises no
exception and performs no fallible operation: it returns `Except.ok` with the
final state and an empty effect trace. -/
theorem c4_no_error (env : Line → Bool) :
    execModule env flowModule = Except.ok (flowFinalState, []) := rfl

/-- Witness for C4 at a concrete environment. -/
theorem c4_no_error_witness :
    execModule (fun _ => false) flowModule = Except.ok (flowFinalState, []) :=
  c4_no_error (fun _ => false)

/-- Claim C5: none of the nine row field names named in the comments is bound
in the module namespace after execution, and no effect computes or stores a
value for them (the effect trace is empty). -/
theorem c5_fields_unbound (env : Line → Bool) :
    execModule env flowModule = Except.ok (flowFinalState, []) ∧
    ∀ n ∈ metricFieldNames, lookupBind n flowFinalState.binds = none := by
  exact ⟨rfl, by decide⟩

/-- Witness for C5 at a concrete environment. -/
theorem c5_fields_unbound_witness :
    execModule (fun _ => true) flowModule = Except.ok (flowFinalState, []) ∧
    ∀ n ∈ metricFieldNames, lookupBind n flowFinalState.binds = none :=
  c5_fields_unbound (fun _ => true)

/-- Claim C6: executing the module performs no import of `cocoindex` (or of
anything), evaluates no call expression, and issues no network or database
operation: the effect trace is empty and the statement list contains no
statement that imports and none that calls. -/
theorem c6_no_framework_use (env : Line → Bool) :
    execModule env flowModule = Except.ok (flowFinalState, []) ∧
    flowModule.all (fun s => !(isImportStmt s) && !(isCallStmt s)) = true := by
  exact ⟨rfl, by decide⟩

/-- Witness for C6 at a concrete environment. -/
theorem c6_no_framework_use_witness :
    execModule (fun _ => false) flowModule = Except.ok (flowFinalState, []) ∧
    flowModule.all (fun s => !(isImportStmt s) && !(isCallStmt s)) = true :=
  c6_no_framework_use (fun _ => false)

/-- Claim C7: executing the module leaves all state outside the module's own
namespace unchanged — the effect trace is empty — and the only namespace
effect is binding the module docstring `__doc__`. -/
theorem c7_frame (env : Line → Bool) :
    execModule env flowModule = Except.ok (flowFinalState, []) ∧
    flowFinalState.binds = [(docName, PyVal.vstr flowDocstring)] :=
  ⟨rfl, rfl⟩

/-- Witness for C7 at a concrete environment. -/
theorem c7_frame_witness :
    execModule (fun _ => true) flowModule = Except.ok (flowFinalState, []) ∧
    flowFinalState.binds = [(docName, PyVal.vstr flowDocstring)] :=
  c7_frame (fun _ => true)

/-- Claim C8: the file parses as valid source (the scan succeeds), and the
embedded program is non-executing: in every environment it returns at once
with an empty effect trace. -/
theorem c8_parses_nonexecuting :
    (parsePyModule flowPyLines).isSome = true ∧
    ∀ env : Line → Bool, execModule env flowModule = Except.ok (flowFinalState, []) :=
  ⟨by decide, fun _ => rfl⟩

/-- Claim C9: module execution is deterministic and input-independent: any
two environments produce the identical result, i.e. the embedded module
function is constant in its environment. -/
theorem c9_constant (env1 env2 : Line → Bool) :
    execModule env1 flowModule = execModule env2 flowModule := rfl

/-- Witness for C9 at two concrete environments. -/
theorem c9_constant_witness :
    execModule (fun _ => true) flowModule = execModule (fun _ => false) flowModule :=
  c9_constant (fun _ => true) (fun _ => false)

/-- Claim C10: after execution the module namespace contains no public name —
in particular no name `flow` — only the docstring binding `__doc__`. -/
theorem c10_no_public_names (env : Line → Bool) :
    execModule env flowModule = Except.ok (flowFinalState, []) ∧
    publicNames flowFinalState = [] ∧
    lookupBind flowName flowFinalState.binds = none := by
  exact ⟨rfl, by decide, by decide⟩

/-- Witness for C10 at a concrete environment. -/
theorem c10_no_public_names_witness :
    execModule (fun _ => false) flowModule = Except.ok (flowFinalState, []) ∧
    publicNames flowFinalState = [] ∧
    lookupBind flowName flowFinalState.binds = none :=
  c10_no_public_names (fun _ => false)
